import Mathlib

/-!
Shallow embedding of the permission middleware in
`src/api/middleware/check-permission.js`.

JavaScript values are modelled as follows: an optional string field that the
code tests for truthiness (`user.role`, `req.params.userId`, …) becomes an
`Option String`, with the empty string kept distinct because JS treats `""`
as falsy; the `user.permissions` field, which the code shape-checks with
`Array.isArray`, becomes the three-way `PermField` (absent/falsy, present but
not an array, or an array of strings); the asynchronous user lookup becomes
the explicit `LookupResult` (found / not found / infrastructure error), and
an HTTP response of the middleware becomes a `GuardOutcome`.
-/

namespace CheckPermission

/-- Permission catalog (`PERMISSIONS` object, lines 4-31 of the source). -/
def PERMISSIONS_READ_OWN : String := "read:own"

def PERMISSIONS_UPDATE_OWN : String := "update:own"

def PERMISSIONS_DELETE_OWN : String := "delete:own"

def PERMISSIONS_READ_PRODUCTS : String := "read:products"

def PERMISSIONS_CREATE_PRODUCTS : String := "create:products"

def PERMISSIONS_UPDATE_PRODUCTS : String := "update:products"

def PERMISSIONS_DELETE_PRODUCTS : String := "delete:products"

def PERMISSIONS_READ_ORDERS : String := "read:orders"

def PERMISSIONS_CREATE_ORDERS : String := "create:orders"

def PERMISSIONS_UPDATE_ORDERS : String := "update:orders"

def PERMISSIONS_DELETE_ORDERS : String := "delete:orders"

def PERMISSIONS_READ_ALL : String := "read:all"

def PERMISSIONS_CREATE_ALL : String := "create:all"

def PERMISSIONS_UPDATE_ALL : String := "update:all"

def PERMISSIONS_DELETE_ALL : String := "delete:all"

def PERMISSIONS_MANAGE_USERS : String := "manage:users"

def PERMISSIONS_ASSIGN_ROLES : String := "assign:roles"

/-- The `user.permissions` field as the JS code can observe it:
absent/falsy, present but not an array, or an array of strings. -/
inductive PermField where
  | missing : PermField
  | malformed : PermField
  | arr : List String → PermField
deriving DecidableEq

/-- The user record fetched from the store; the middleware reads `_id`
(via `toString()`), `role` and `permissions`. -/
structure User where
  _id : String
  role : Option String
  permissions : PermField
deriving DecidableEq

/-- The request path parameters consulted by `hasResourceOwnership`
(`req.params.userId`, `req.params.id`). -/
structure ReqParams where
  userId : Option String
  id : Option String
deriving DecidableEq

/-- The options threaded into `checkUserPermissions`: `resource`,
`allowOwner`, and the request object (of which only the params matter). -/
structure EvalOptions where
  resource : Option String
  allowOwner : Bool
  req : ReqParams
deriving DecidableEq

/-- JS truthiness of an optional string: `undefined`/`null` and `""`
are falsy. -/
def strTruthy : Option String → Bool
  | none => false
  | some s => s != ""

/-- `ROLE_PERMISSIONS` mapping (lines 34-52): role name to granted
permission list, `none` when the key is absent from the object. -/
def ROLE_PERMISSIONS (role : String) : Option (List String) :=
  if role = "user" then
    some [PERMISSIONS_READ_OWN, PERMISSIONS_UPDATE_OWN]
  else if role = "moderator" then
    some [PERMISSIONS_READ_OWN, PERMISSIONS_UPDATE_OWN,
      PERMISSIONS_READ_PRODUCTS, PERMISSIONS_CREATE_PRODUCTS,
      PERMISSIONS_UPDATE_PRODUCTS]
  else if role = "manager" then
    some [PERMISSIONS_READ_ALL, PERMISSIONS_CREATE_ALL,
      PERMISSIONS_UPDATE_ALL, PERMISSIONS_READ_ORDERS,
      PERMISSIONS_UPDATE_ORDERS]
  else if role = "admin" then
    some ["*"]
  else if role = "superadmin" then
    some ["*"]
  else
    none

/-- `ADMIN_ROLES` (line 55). -/
def ADMIN_ROLES : List String := ["admin", "superadmin"]

/-- `isAdmin` (lines 205-207): `user.role && ADMIN_ROLES.includes(user.role)`. -/
def isAdmin (user : User) : Bool :=
  match user.role with
  | none => false
  | some r => (r != "") && ADMIN_ROLES.contains r

/-- The `resourceId` computed by `hasResourceOwnership` (line 216):
`req.params.userId || req.params.id`, where `||` takes the first truthy
operand. -/
def targetId (req : ReqParams) : Option String :=
  if strTruthy req.userId then req.userId else req.id

/-- `hasResourceOwnership` (lines 215-218): the resolved id must be truthy
and string-equal to `user._id.toString()`. -/
def hasResourceOwnership (user : User) (req : ReqParams) : Bool :=
  match targetId req with
  | none => false
  | some s => (s != "") && (s == user._id)

/-- `hasExplicitPermissions` (lines 226-234): bail out to `false` unless
`user.permissions` is an array, else require every required permission to
be included. -/
def hasExplicitPermissions (user : User) (requiredPermissions : List String) : Bool :=
  match user.permissions with
  | PermField.arr ps => requiredPermissions.all (fun p => ps.contains p)
  | _ => false

/-- `hasRolePermissions` (lines 242-258): falsy role fails; unknown role
defaults to the empty list (`|| []`); wildcard `"*"` grants everything;
otherwise every required permission must be in the role's list. -/
def hasRolePermissions (user : User) (requiredPermissions : List String) : Bool :=
  match user.role with
  | none => false
  | some r =>
    if r = "" then false
    else
      let rolePermissions := (ROLE_PERMISSIONS r).getD []
      if rolePermissions.contains "*" then true
      else requiredPermissions.all (fun p => rolePermissions.contains p)

/-- `checkUserPermissions` (lines 174-198): admin bypass, then ownership
bypass, then explicit grants, then role grants, else deny. -/
def checkUserPermissions (user : User) (requiredPermissions : List String)
    (options : EvalOptions) : Bool :=
  if isAdmin user then true
  else if options.allowOwner && (options.resource == some "own")
      && hasResourceOwnership user options.req then true
  else if hasExplicitPermissions user requiredPermissions then true
  else if hasRolePermissions user requiredPermissions then true
  else false

/-- The ownership-bypass condition of step 2 of `checkUserPermissions`
(line 183), named for use in theorem statements. -/
def ownershipBypass (user : User) (options : EvalOptions) : Bool :=
  options.allowOwner && (options.resource == some "own")
    && hasResourceOwnership user options.req

/-- The route-level required-permissions argument: a single string or an
array (line 59). -/
inductive PermInput where
  | single : String → PermInput
  | plural : List String → PermInput
deriving DecidableEq

/-- `normalizePermissions` (lines 141-143). -/
def normalizePermissions : PermInput → List String
  | PermInput.single p => [p]
  | PermInput.plural ps => ps

/-- Result of the user-store lookup `User.findById`: a record, no record,
or an infrastructure error (a rejected promise / thrown error). -/
inductive LookupResult where
  | found : User → LookupResult
  | notFound : LookupResult
  | infraError : LookupResult
deriving DecidableEq

/-- The middleware's observable outcome: a 401 response, a 403 response,
a 500 response, or calling `next()`. -/
inductive GuardOutcome where
  | unauthorized : String → GuardOutcome
  | forbidden : String → GuardOutcome
  | internalError : GuardOutcome
  | proceed : GuardOutcome
deriving DecidableEq

/-- `validateAuthentication` (lines 116-121): `req.userData` and a truthy
`req.userData.userId` are required; `userData` here is the optional userId. -/
def validateAuthentication (userData : Option String) : Bool :=
  strTruthy userData

/-- One invocation of the middleware produced by `checkPermission`
(lines 65-109): authentication check, user lookup (infrastructure errors
caught at line 102 give 500, missing user gives 401 at line 79),
normalization, permission evaluation, then 403 or `next()`. -/
def checkPermissionGuard (requiredPermissions : PermInput) (options : EvalOptions)
    (userData : Option String) (store : LookupResult) : GuardOutcome :=
  if !validateAuthentication userData then
    GuardOutcome.unauthorized "Authentication required"
  else
    match store with
    | LookupResult.infraError => GuardOutcome.internalError
    | LookupResult.notFound => GuardOutcome.unauthorized "User not found"
    | LookupResult.found user =>
      let permissions := normalizePermissions requiredPermissions
      if checkUserPermissions user permissions options then
        GuardOutcome.proceed
      else
        GuardOutcome.forbidden "Insufficient permissions"

/-- One invocation of the middleware produced by `requireAdmin`
(lines 283-303): missing identity gives 401; a missing user or a non-admin
user gives 403 "Admin access required"; a lookup error gives 500. -/
def requireAdminGuard (userData : Option String) (store : LookupResult) : GuardOutcome :=
  if !strTruthy userData then
    GuardOutcome.unauthorized "Authentication required"
  else
    match store with
    | LookupResult.infraError => GuardOutcome.internalError
    | LookupResult.notFound => GuardOutcome.forbidden "Admin access required"
    | LookupResult.found user =>
      if isAdmin user then GuardOutcome.proceed
      else GuardOutcome.forbidden "Admin access required"

/-- The ordered sequence of the four allow-checks of `checkUserPermissions`,
as the spec lists them (§4.3 steps 1-4). -/
def specCheckSequence (user : User) (requiredPermissions : List String)
    (options : EvalOptions) : List Bool :=
  [isAdmin user,
   ownershipBypass user options,
   hasExplicitPermissions user requiredPermissions,
   hasRolePermissions user requiredPermissions]

/-- First-match evaluation of an ordered check sequence: return `true` at
the first check that succeeds, `false` when none does (§4.3 step 5). -/
def firstSuccess : List Bool → Bool
  | [] => false
  | b :: bs => if b then true else firstSuccess bs

end CheckPermission

namespace CheckPermission

/-- `checkUserPermissions` phrased with the named `ownershipBypass`
condition; holds definitionally. -/
theorem checkUserPermissions_unfold (u : User) (req : List String) (o : EvalOptions) :
    checkUserPermissions u req o =
      if isAdmin u then true
      else if ownershipBypass u o then true
      else if hasExplicitPermissions u req then true
      else if hasRolePermissions u req then true
      else false := rfl

/-- C1: a caller whose role is admin or superadmin is allowed by
`checkUserPermissions` for every requirement set and every options value;
the verdict does not depend on the id, the explicit permissions, the
ownership context, or the role table. -/
theorem C1_admin_bypass (u : User) (req : List String) (o : EvalOptions)
    (h : u.role = some "admin" ∨ u.role = some "superadmin") :
    checkUserPermissions u req o = true := by
  rcases h with h | h <;>
    simp [checkUserPermissions, isAdmin, ADMIN_ROLES, h]

/-- C1 witness: an admin caller with no explicit permissions and no
ownership context is allowed a delete-all requirement. -/
theorem C1_admin_bypass_witness :
    checkUserPermissions ⟨"u1", some "admin", PermField.missing⟩
      [PERMISSIONS_DELETE_ALL] ⟨none, false, ⟨none, none⟩⟩ = true :=
  C1_admin_bypass _ _ _ (Or.inl rfl)

/-- C2: `checkUserPermissions` equals first-match evaluation of the ordered
four-check sequence (admin bypass, ownership bypass, explicit grants, role
grants) with default deny, and each check determines the verdict exactly
when all earlier checks returned false. -/
theorem C2_strict_order (u : User) (req : List String) (o : EvalOptions) :
    checkUserPermissions u req o = firstSuccess (specCheckSequence u req o) ∧
    (isAdmin u = true → checkUserPermissions u req o = true) ∧
    (isAdmin u = false → ownershipBypass u o = true →
      checkUserPermissions u req o = true) ∧
    (isAdmin u = false → ownershipBypass u o = false →
      hasExplicitPermissions u req = true → checkUserPermissions u req o = true) ∧
    (isAdmin u = false → ownershipBypass u o = false →
      hasExplicitPermissions u req = false → hasRolePermissions u req = true →
      checkUserPermissions u req o = true) ∧
    (isAdmin u = false → ownershipBypass u o = false →
      hasExplicitPermissions u req = false → hasRolePermissions u req = false →
      checkUserPermissions u req o = false) := by
  rw [checkUserPermissions_unfold]
  cases ha : isAdmin u <;> cases hb : ownershipBypass u o <;>
    cases hc : hasExplicitPermissions u req <;>
    cases hd : hasRolePermissions u req <;>
    simp [specCheckSequence, firstSuccess, ha, hb, hc, hd]

/-- C2 witness: the final deny branch at a concrete caller for whom all four
checks fail. -/
theorem C2_strict_order_witness :
    checkUserPermissions ⟨"u1", some "user", PermField.missing⟩
      [PERMISSIONS_CREATE_PRODUCTS] ⟨none, false, ⟨none, none⟩⟩ = false :=
  (C2_strict_order _ _ _).2.2.2.2.2 (by decide) (by decide) (by decide) (by decide)

/-- C3: for a non-empty requirement set, the explicit-grants step succeeds
iff every required permission is in the caller's explicit array, and the
role-grants step (when the role's list has no wildcard) succeeds iff every
required permission is in the role's granted list. -/
theorem C3_conjunctive (u : User) (req : List String) (hne : req ≠ []) :
    (∀ ps, u.permissions = PermField.arr ps →
      (hasExplicitPermissions u req = true ↔ ∀ p ∈ req, p ∈ ps)) ∧
    (∀ r, u.role = some r → r ≠ "" →
      "*" ∉ (ROLE_PERMISSIONS r).getD [] →
      (hasRolePermissions u req = true ↔
        ∀ p ∈ req, p ∈ (ROLE_PERMISSIONS r).getD [])) := by
  constructor
  · intro ps hps
    simp [hasExplicitPermissions, hps, List.all_eq_true, List.elem_iff]
  · intro r hr hr0 hw
    have hw' : ((ROLE_PERMISSIONS r).getD []).contains "*" = false := by
      simp [List.elem_iff, hw]
    simp [hasRolePermissions, hr, hr0, hw', List.all_eq_true, List.elem_iff]
    intro h
    exact absurd h hw

/-- C3 witness: the explicit-grants equivalence at a caller holding only
read-own while read-own and update-own are required. -/
theorem C3_conjunctive_witness :
    (hasExplicitPermissions
        ⟨"u1", some "user", PermField.arr [PERMISSIONS_READ_OWN]⟩
        [PERMISSIONS_READ_OWN, PERMISSIONS_UPDATE_OWN] = true ↔
      ∀ p ∈ [PERMISSIONS_READ_OWN, PERMISSIONS_UPDATE_OWN],
        p ∈ [PERMISSIONS_READ_OWN]) :=
  (C3_conjunctive ⟨"u1", some "user", PermField.arr [PERMISSIONS_READ_OWN]⟩
      [PERMISSIONS_READ_OWN, PERMISSIONS_UPDATE_OWN] (by decide)).1
    [PERMISSIONS_READ_OWN] rfl

end CheckPermission

namespace CheckPermission

/-- C4: with allowOwner and resource own, a non-admin caller whose id equals
the request's (truthy) target id is allowed even for the empty requirement
set; when the target id is absent or differs, the verdict is exactly the
explicit-grants-or-role-grants outcome; and when the ownership options are
not both set, the verdict is independent of the request parameters. -/
theorem C4_ownership_bypass :
    (∀ (u : User) (o : EvalOptions),
      isAdmin u = false → o.allowOwner = true → o.resource = some "own" →
      targetId o.req = some u._id → u._id ≠ "" →
      checkUserPermissions u [] o = true) ∧
    (∀ (u : User) (req : List String) (o : EvalOptions),
      isAdmin u = false →
      (∀ s, targetId o.req = some s → s = "" ∨ s ≠ u._id) →
      checkUserPermissions u req o =
        (hasExplicitPermissions u req || hasRolePermissions u req)) ∧
    (∀ (u : User) (req : List String) (resource : Option String)
        (allowOwner : Bool) (ctx1 ctx2 : ReqParams),
      ¬(allowOwner = true ∧ resource = some "own") →
      checkUserPermissions u req ⟨resource, allowOwner, ctx1⟩ =
        checkUserPermissions u req ⟨resource, allowOwner, ctx2⟩) := by
  refine ⟨?_, ?_, ?_⟩
  · intro u o ha h1 h2 h3 h4
    have hro : hasResourceOwnership u o.req = true := by
      simp [hasResourceOwnership, h3, h4]
    rw [checkUserPermissions_unfold]
    simp [ha, ownershipBypass, h1, h2, hro]
  · intro u req o ha hs
    have hro : hasResourceOwnership u o.req = false := by
      unfold hasResourceOwnership
      cases ht : targetId o.req with
      | none => rfl
      | some s =>
        rcases hs s ht with h | h
        · simp [h]
        · simp [h]
    rw [checkUserPermissions_unfold]
    cases he : hasExplicitPermissions u req <;>
      cases hrp : hasRolePermissions u req <;>
      simp [ha, ownershipBypass, hro, he, hrp]
  · intro u req resource allowOwner ctx1 ctx2 h
    by_cases hA : allowOwner = true
    · have hR : resource ≠ some "own" := fun hc => h ⟨hA, hc⟩
      have hR' : (resource == some "own") = false := by
        simp [hR]
      rw [checkUserPermissions_unfold, checkUserPermissions_unfold]
      simp [ownershipBypass, hR']
    · have hA' : allowOwner = false := by
        cases allowOwner
        · rfl
        · exact absurd rfl hA
      rw [checkUserPermissions_unfold, checkUserPermissions_unfold]
      simp [ownershipBypass, hA']

/-- C4 witness: a role-user caller accessing their own record is allowed
with an empty requirement set. -/
theorem C4_ownership_bypass_witness :
    checkUserPermissions ⟨"u1", some "user", PermField.missing⟩ []
      ⟨some "own", true, ⟨some "u1", none⟩⟩ = true :=
  C4_ownership_bypass.1 ⟨"u1", some "user", PermField.missing⟩
    ⟨some "own", true, ⟨some "u1", none⟩⟩
    (by decide) rfl rfl (by decide) (by decide)

/-- C5: a caller with role user whose explicit permission array contains
manage-users is allowed when requiring manage-users, although the role
table does not grant manage-users to the user role. -/
theorem C5_explicit_overrides_role (id : String) (ps : List String) (o : EvalOptions)
    (hmem : PERMISSIONS_MANAGE_USERS ∈ ps) :
    checkUserPermissions ⟨id, some "user", PermField.arr ps⟩
      [PERMISSIONS_MANAGE_USERS] o = true ∧
    PERMISSIONS_MANAGE_USERS ∉ (ROLE_PERMISSIONS "user").getD [] := by
  refine ⟨?_, by decide⟩
  have hexp : hasExplicitPermissions ⟨id, some "user", PermField.arr ps⟩
      [PERMISSIONS_MANAGE_USERS] = true := by
    simp [hasExplicitPermissions, List.elem_iff, hmem]
  have hadmin : isAdmin ⟨id, some "user", PermField.arr ps⟩ = false := rfl
  rw [checkUserPermissions_unfold]
  cases hb : ownershipBypass ⟨id, some "user", PermField.arr ps⟩ o <;>
    simp [hadmin, hb, hexp]

/-- C5 witness: the concrete caller with explicit manage-users grant. -/
theorem C5_explicit_overrides_role_witness :
    checkUserPermissions ⟨"u1", some "user", PermField.arr [PERMISSIONS_MANAGE_USERS]⟩
      [PERMISSIONS_MANAGE_USERS] ⟨none, false, ⟨none, none⟩⟩ = true :=
  (C5_explicit_overrides_role "u1" [PERMISSIONS_MANAGE_USERS]
    ⟨none, false, ⟨none, none⟩⟩ (by decide)).1

/-- C6 counterexample: a caller with the unknown role ghost, not admin, no
ownership bypass, and the empty requirement set is ALLOWED (the role step
vacuously succeeds on the empty conjunction), refuting the claim that
evaluation always denies for an unknown role. -/
theorem C6_counterexample :
    ROLE_PERMISSIONS "ghost" = none ∧
    isAdmin ⟨"u1", some "ghost", PermField.missing⟩ = false ∧
    ownershipBypass ⟨"u1", some "ghost", PermField.missing⟩
      ⟨none, false, ⟨none, none⟩⟩ = false ∧
    checkUserPermissions ⟨"u1", some "ghost", PermField.missing⟩ []
      ⟨none, false, ⟨none, none⟩⟩ = true := by
  decide

/-- C6 amended: for a caller with a role absent from the role table, the
lookup defaults to the empty permission list rather than an error, and
evaluation denies provided the requirement set is non-empty, the
explicit-grants step fails, and the ownership bypass does not apply. -/
theorem C6_unknown_role (u : User) (req : List String) (o : EvalOptions) (r : String)
    (hr : u.role = some r) (hunknown : ROLE_PERMISSIONS r = none)
    (hown : ownershipBypass u o = false)
    (hexp : hasExplicitPermissions u req = false)
    (hne : req ≠ []) :
    (ROLE_PERMISSIONS r).getD [] = [] ∧ checkUserPermissions u req o = false := by
  have hadmin : isAdmin u = false := by
    have h1 : r ≠ "admin" := by
      intro h
      rw [h] at hunknown
      exact absurd hunknown (by decide)
    have h2 : r ≠ "superadmin" := by
      intro h
      rw [h] at hunknown
      exact absurd hunknown (by decide)
    simp [isAdmin, hr, ADMIN_ROLES, h1, h2]
  have hrole : hasRolePermissions u req = false := by
    by_cases h0 : r = ""
    · simp [hasRolePermissions, hr, h0]
    · cases req with
      | nil => exact absurd rfl hne
      | cons a as => simp [hasRolePermissions, hr, h0, hunknown]
  refine ⟨by rw [hunknown]; rfl, ?_⟩
  rw [checkUserPermissions_unfold]
  simp [hadmin, hown, hexp, hrole]

/-- C6 amended witness: unknown role ghost with a non-empty requirement set
is denied. -/
theorem C6_unknown_role_witness :
    checkUserPermissions ⟨"u1", some "ghost", PermField.missing⟩
      [PERMISSIONS_READ_OWN] ⟨none, false, ⟨none, none⟩⟩ = false :=
  (C6_unknown_role ⟨"u1", some "ghost", PermField.missing⟩
    [PERMISSIONS_READ_OWN] ⟨none, false, ⟨none, none⟩⟩ "ghost"
    rfl (by decide) (by decide) (by decide) (by decide)).2

/-- C7 counterexample: a non-admin caller with role user whose explicit
permission array contains create-products is ALLOWED when requiring
create-products, refuting the claim that all non-admin role-user callers
are denied that requirement. -/
theorem C7_counterexample :
    isAdmin ⟨"u1", some "user", PermField.arr [PERMISSIONS_CREATE_PRODUCTS]⟩ = false ∧
    ownershipBypass ⟨"u1", some "user", PermField.arr [PERMISSIONS_CREATE_PRODUCTS]⟩
      ⟨none, false, ⟨none, none⟩⟩ = false ∧
    checkUserPermissions ⟨"u1", some "user", PermField.arr [PERMISSIONS_CREATE_PRODUCTS]⟩
      [PERMISSIONS_CREATE_PRODUCTS] ⟨none, false, ⟨none, none⟩⟩ = true := by
  decide

/-- C7 amended: a non-admin caller with role user whose explicit permission
data does not contain create-products is denied a create-products
requirement (without the ownership bypass), since the user role grants only
read-own and update-own. -/
theorem C7_user_create_products (u : User) (o : EvalOptions)
    (hrole : u.role = some "user")
    (hexp : ∀ ps, u.permissions = PermField.arr ps → PERMISSIONS_CREATE_PRODUCTS ∉ ps)
    (hown : ownershipBypass u o = false) :
    checkUserPermissions u [PERMISSIONS_CREATE_PRODUCTS] o = false := by
  have hadmin : isAdmin u = false := by
    simp [isAdmin, hrole, ADMIN_ROLES]
  have he : hasExplicitPermissions u [PERMISSIONS_CREATE_PRODUCTS] = false := by
    unfold hasExplicitPermissions
    cases hp : u.permissions with
    | missing => rfl
    | malformed => rfl
    | arr ps =>
      simp [List.elem_iff]
      exact hexp ps hp
  have hrp : hasRolePermissions u [PERMISSIONS_CREATE_PRODUCTS] = false := by
    simp [hasRolePermissions, hrole, ROLE_PERMISSIONS, PERMISSIONS_READ_OWN,
      PERMISSIONS_UPDATE_OWN, PERMISSIONS_CREATE_PRODUCTS]
  rw [checkUserPermissions_unfold]
  simp [hadmin, hown, he, hrp]

/-- C7 amended witness: a role-user caller with no explicit permissions is
denied create-products. -/
theorem C7_user_create_products_witness :
    checkUserPermissions ⟨"u1", some "user", PermField.missing⟩
      [PERMISSIONS_CREATE_PRODUCTS] ⟨none, false, ⟨none, none⟩⟩ = false :=
  C7_user_create_products ⟨"u1", some "user", PermField.missing⟩
    ⟨none, false, ⟨none, none⟩⟩ rfl
    (fun ps h => by cases h) (by decide)

end CheckPermission

namespace CheckPermission

/-- C8: when the explicit-permissions field is absent or not an array, the
explicit-grants step returns false (never throws, as the Lean function is
total), and evaluation continues to the admin / ownership / role checks
exactly as for a caller with no explicit grants. -/
theorem C8_malformed_explicit (u : User) (req : List String) (o : EvalOptions)
    (hmal : u.permissions = PermField.missing ∨ u.permissions = PermField.malformed) :
    hasExplicitPermissions u req = false ∧
    checkUserPermissions u req o =
      (if isAdmin u then true
       else if ownershipBypass u o then true
       else hasRolePermissions u req) := by
  have he : hasExplicitPermissions u req = false := by
    rcases hmal with h | h <;> simp [hasExplicitPermissions, h]
  refine ⟨he, ?_⟩
  rw [checkUserPermissions_unfold]
  cases h1 : isAdmin u <;> cases h2 : ownershipBypass u o <;>
    cases h3 : hasRolePermissions u req <;> simp [h1, h2, h3, he]

/-- C8 witness: a caller with a malformed permissions field. -/
theorem C8_malformed_explicit_witness :
    hasExplicitPermissions ⟨"u1", some "user", PermField.malformed⟩
      [PERMISSIONS_READ_OWN] = false ∧
    checkUserPermissions ⟨"u1", some "user", PermField.malformed⟩
      [PERMISSIONS_READ_OWN] ⟨none, false, ⟨none, none⟩⟩ =
      (if isAdmin ⟨"u1", some "user", PermField.malformed⟩ then true
       else if ownershipBypass ⟨"u1", some "user", PermField.malformed⟩
           ⟨none, false, ⟨none, none⟩⟩ then true
       else hasRolePermissions ⟨"u1", some "user", PermField.malformed⟩
         [PERMISSIONS_READ_OWN]) :=
  C8_malformed_explicit ⟨"u1", some "user", PermField.malformed⟩
    [PERMISSIONS_READ_OWN] ⟨none, false, ⟨none, none⟩⟩ (Or.inr rfl)

/-- C9 counterexample: with an identity present and the store returning no
record, the admin-only guard responds 403 Admin access required, which
differs from the 401 authentication failure issued when the identity is
absent — refuting the claim that every guard treats a missing caller
record as an authentication failure. -/
theorem C9_counterexample :
    requireAdminGuard (some "u1") LookupResult.notFound =
      GuardOutcome.forbidden "Admin access required" ∧
    requireAdminGuard none LookupResult.notFound =
      GuardOutcome.unauthorized "Authentication required" ∧
    GuardOutcome.forbidden "Admin access required" ≠
      GuardOutcome.unauthorized "Authentication required" := by
  decide

/-- C9 amended: when the identity is present but the store returns no
record, the general guard rejects 401 User not found (an authentication
failure, like an absent identity), while the admin-only guard rejects 403
Admin access required (a permission-denial response). -/
theorem C9_caller_not_found (perms : PermInput) (o : EvalOptions)
    (uid : String) (huid : uid ≠ "") :
    checkPermissionGuard perms o (some uid) LookupResult.notFound =
      GuardOutcome.unauthorized "User not found" ∧
    requireAdminGuard (some uid) LookupResult.notFound =
      GuardOutcome.forbidden "Admin access required" ∧
    checkPermissionGuard perms o none LookupResult.notFound =
      GuardOutcome.unauthorized "Authentication required" ∧
    requireAdminGuard none LookupResult.notFound =
      GuardOutcome.unauthorized "Authentication required" := by
  refine ⟨?_, ?_, rfl, rfl⟩ <;>
    simp [checkPermissionGuard, requireAdminGuard, validateAuthentication,
      strTruthy, huid]

/-- C9 amended witness: the general guard at a concrete identity. -/
theorem C9_caller_not_found_witness :
    checkPermissionGuard (PermInput.plural []) ⟨none, false, ⟨none, none⟩⟩
      (some "u1") LookupResult.notFound =
      GuardOutcome.unauthorized "User not found" :=
  (C9_caller_not_found (PermInput.plural []) ⟨none, false, ⟨none, none⟩⟩
    "u1" (by decide)).1

/-- C10: for the empty requirement set, any caller with a non-empty role
string is allowed (the conjunctive checks are vacuous), even when the role
is absent from the role table; a caller with no role and a non-array
explicit-permissions field is denied (absent admin or ownership bypass). -/
theorem C10_empty_requirements (u : User) (o : EvalOptions) :
    (∀ r, u.role = some r → r ≠ "" → checkUserPermissions u [] o = true) ∧
    (u.role = none → (∀ ps, u.permissions ≠ PermField.arr ps) →
      ownershipBypass u o = false → checkUserPermissions u [] o = false) := by
  constructor
  · intro r hr hr0
    have hrp : hasRolePermissions u [] = true := by
      by_cases hw : ((ROLE_PERMISSIONS r).getD []).contains "*" = true <;>
        simp [hasRolePermissions, hr, hr0, hw]
    rw [checkUserPermissions_unfold]
    cases h1 : isAdmin u <;> cases h2 : ownershipBypass u o <;>
      cases h3 : hasExplicitPermissions u [] <;> simp [h1, h2, h3, hrp]
  · intro hr hp hown
    have hadmin : isAdmin u = false := by simp [isAdmin, hr]
    have he : hasExplicitPermissions u [] = false := by
      unfold hasExplicitPermissions
      cases hperm : u.permissions with
      | missing => rfl
      | malformed => rfl
      | arr ps => exact absurd hperm (hp ps)
    have hrp : hasRolePermissions u [] = false := by
      simp [hasRolePermissions, hr]
    rw [checkUserPermissions_unfold]
    simp [hadmin, hown, he, hrp]

/-- C10 witness: a caller with no role and a malformed permissions field is
denied even for the empty requirement set. -/
theorem C10_empty_requirements_witness :
    checkUserPermissions ⟨"u1", none, PermField.malformed⟩ []
      ⟨none, false, ⟨none, none⟩⟩ = false :=
  (C10_empty_requirements ⟨"u1", none, PermField.malformed⟩
    ⟨none, false, ⟨none, none⟩⟩).2 rfl
    (fun ps h => by cases h) (by decide)

end CheckPermission
